import Mathlib

set_option maxRecDepth 8000

/-!
Verification development for the prisma-shared logging and monitoring core
(`src/common/utils/logging.py` and `src/common/utils/log_monitor.py`).

The Python code is shallowly embedded: dictionaries become insertion-ordered
association lists with replace-or-append assignment (matching Python dict
semantics), `datetime` values become integer epoch seconds, and JSON values
become a small inductive type.  Functions that read the wall clock receive
`now` as an explicit argument.
-/

namespace Prisma

/-- JSON-style value, as produced by `json.dumps` with `default=str`: every
non-serializable Python object is rendered through `str`. -/
inductive JVal where
  | str : String → JVal
  | num : Int → JVal
  | nul : JVal
deriving DecidableEq

/-- Insertion-ordered string-keyed mapping, the embedding of a Python dict. -/
abbrev JObj := List (String × JVal)

/-- Python dict assignment `d[k] = v`: replace in place if the key exists
(keeping its position), otherwise append. -/
def dinsert {α : Type} : List (String × α) → String → α → List (String × α)
  | [], k, v => [(k, v)]
  | (k', v') :: rest, k, v =>
      if k' = k then (k, v) :: rest else (k', v') :: dinsert rest k v

/-- Python dict lookup `d.get(k)`. -/
def dlookup {α : Type} : List (String × α) → String → Option α
  | [], _ => none
  | (k', v) :: rest, k => if k' = k then some v else dlookup rest k

/-- Python `d.update(other)`: assign every key of `other` into `d` in order. -/
def dupdate {α : Type} (m : List (String × α)) (kvs : List (String × α)) :
    List (String × α) :=
  kvs.foldl (fun acc kv => dinsert acc kv.1 kv.2) m

/-- Keys of a dict, in order. -/
def dkeys {α : Type} (m : List (String × α)) : List String := m.map Prod.fst

theorem dlookup_dinsert_self {α : Type} (m : List (String × α)) (k : String) (v : α) :
    dlookup (dinsert m k v) k = some v := by
  induction m with
  | nil => simp [dinsert, dlookup]
  | cons hd tl ih =>
      obtain ⟨k', v'⟩ := hd
      by_cases h : k' = k
      · simp [dinsert, dlookup, h]
      · simp [dinsert, dlookup, h, ih]

theorem dlookup_dinsert_ne {α : Type} (m : List (String × α)) {k k' : String} (v : α)
    (h : k ≠ k') : dlookup (dinsert m k' v) k = dlookup m k := by
  have h' : k' ≠ k := fun hc => h hc.symm
  induction m with
  | nil => simp [dinsert, dlookup, h']
  | cons hd tl ih =>
      obtain ⟨k₀, v₀⟩ := hd
      by_cases h₀ : k₀ = k'
      · subst h₀
        simp [dinsert, dlookup, h']
      · simp [dinsert, dlookup, h₀, ih]

theorem dlookup_dupdate_notmem {α : Type} (kvs : List (String × α)) (m : List (String × α))
    {k : String} (h : k ∉ dkeys kvs) : dlookup (dupdate m kvs) k = dlookup m k := by
  induction kvs generalizing m with
  | nil => rfl
  | cons hd tl ih =>
      obtain ⟨k₀, v₀⟩ := hd
      have hk₀ : k ≠ k₀ := by
        intro hc
        exact h (by simp [dkeys, hc])
      have htl : k ∉ dkeys tl := by
        intro hc
        exact h (by simp [dkeys] at hc ⊢; exact Or.inr hc)
      calc dlookup (dupdate (dinsert m k₀ v₀) tl) k
          = dlookup (dinsert m k₀ v₀) k := ih (dinsert m k₀ v₀) htl
        _ = dlookup m k := dlookup_dinsert_ne m v₀ hk₀

/-! Embedding of `LogCategory` from `logging.py`: a Python `Enum` whose member
values are lowercase strings.  `LogCategory.value` is the enum `.value`
attribute; `LogCategory.pyStr` is `str(member)`, the form `json.dumps` with
`default=str` falls back to for a raw enum object. -/

inductive LogCategory where
  | system | application | security | audit | performance
  | business | error | api | database | external
deriving DecidableEq

def LogCategory.value : LogCategory → String
  | .system => "system"
  | .application => "application"
  | .security => "security"
  | .audit => "audit"
  | .performance => "performance"
  | .business => "business"
  | .error => "error"
  | .api => "api"
  | .database => "database"
  | .external => "external"

def LogCategory.pyStr : LogCategory → String
  | .system => "LogCategory.SYSTEM"
  | .application => "LogCategory.APPLICATION"
  | .security => "LogCategory.SECURITY"
  | .audit => "LogCategory.AUDIT"
  | .performance => "LogCategory.PERFORMANCE"
  | .business => "LogCategory.BUSINESS"
  | .error => "LogCategory.ERROR"
  | .api => "LogCategory.API"
  | .database => "LogCategory.DATABASE"
  | .external => "LogCategory.EXTERNAL"

/-- Embedding of the `LogContext` dataclass (`logging.py` lines 61-82).  The
`extra` mapping payload is abstracted to an optional string; none of the
claims inspects its contents. -/
structure LogContext where
  trace_id : String
  span_id : String
  user_id : Option String := none
  session_id : Option String := none
  request_id : Option String := none
  service_name : Option String := none
  operation : Option String := none
  component : Option String := none
  version : Option String := none
  environment : Option String := none
  extra : Option String := none
deriving DecidableEq

/-- State of the `_trace_context` ContextVar: the currently bound trace
context, or none. -/
abbrev TraceVar := Option LogContext

/-- Embedding of `LogContext.__enter__` (line 76-78): returns `self` and
touches no state. -/
def LogContext.enter (c : LogContext) (s : TraceVar) : LogContext × TraceVar :=
  (c, s)

/-- Embedding of `LogContext.__exit__` (line 80-82): the body is `pass`, so
the ContextVar is left exactly as it was at scope exit. -/
def LogContext.exitScope (_c : LogContext) (s : TraceVar) : TraceVar := s

/-- Embedding of `PrismaLogger.set_trace_context` (lines 332-335):
`_trace_context.set(context)`, an unconditional overwrite. -/
def set_trace_context (c : LogContext) (_s : TraceVar) : TraceVar := some c

/-- Concrete trace context used in counterexamples. -/
def ctx1 : LogContext := { trace_id := "t1", span_id := "s1" }

/-! Embedding of `log_monitor.py`.  Timestamps are integer epoch seconds; the
wall clock (`datetime.now()` / `time.time()`) enters each function as an
explicit `now` argument.  Within one call the source reads the clock several
times microseconds apart; the embedding uses the single instant `now`. -/

/-- Python `str.lower()` over the characters of a string (ASCII case
folding, which is what `Char.toLower` implements and what the level and
pattern names here exercise). -/
def pyLower (s : String) : String := String.mk (s.toList.map Char.toLower)

/-- Case-insensitive substring test over character lists: the embedding of
`re.search` under `re.IGNORECASE` for metacharacter-free (literal) pattern
strings, which is the fragment the claims exercise. -/
def containsSub (pat : List Char) : List Char → Bool
  | [] => pat.isEmpty
  | c :: cs => pat.isPrefixOf (c :: cs) || containsSub pat cs

/-- Embedding of the `LogPattern` dataclass (`log_monitor.py` lines 25-38). -/
structure LogPattern where
  name : String
  pattern : String
  severity : String := "WARNING"
  threshold : Nat := 1
  time_window_minutes : Nat := 5
  enabled : Bool := true
deriving DecidableEq

/-- Embedding of `compiled_pattern.search(line)` where `__post_init__`
compiled `self.pattern` with `re.IGNORECASE` (lines 36-38): for a literal
pattern this is a case-insensitive substring search. -/
def LogPattern.compiledSearch (p : LogPattern) (line : String) : Bool :=
  containsSub (pyLower p.pattern).toList (pyLower line).toList

/-- Embedding of the `Alert` dataclass (lines 41-52). -/
structure Alert where
  id : String
  pattern_name : String
  message : String
  severity : String
  timestamp : Int
  count : Nat
  details : JObj := []
  acknowledged : Bool := false
  resolved : Bool := false
deriving DecidableEq

/-- Mutable monitor state touched by the claims: the per-pattern timestamp
lists (`pattern_timestamps`, a defaultdict of lists), the per-pattern total
counts (`pattern_counts`), the id-keyed alert dict (`active_alerts`), and the
append-only `alert_history` (modelled by the ids appended, since the history
holds the same objects the dict does).  `callback_invocations` records each
alert passed to `alert_callback` and `callback_errors` counts exceptions the
callback raised that `_create_alert` caught and logged. -/
structure MonitorState where
  pattern_timestamps : List (String × List Int) := []
  pattern_counts : List (String × Nat) := []
  active_alerts : List (String × Alert) := []
  alert_history : List String := []
  callback_invocations : List Alert := []
  callback_errors : Nat := 0
deriving DecidableEq

/-- Lookup with defaultdict-of-list semantics. -/
def lookupTs (m : List (String × List Int)) (k : String) : List Int :=
  (dlookup m k).getD []

/-- Stand-in for `datetime.isoformat()`: an injective rendering of the epoch
second. -/
def isoUtc (t : Int) : String := "iso:" ++ toString t

/-- The `.seconds` field of a Python `timedelta`: the normalized
seconds-of-day component, i.e. the total seconds modulo 86400 (Python
normalizes so this component is always in `[0, 86400)`, matching `Int.emod`
with a positive modulus). -/
def pySecondsField (d : Int) : Int := d % 86400

/-- Mutation of the object stored under key `k0` of a Python dict
(`d[k0].field = v` style): every entry keeps its key, and the entry at `k0`
has `f` applied to its value. -/
def updEntry {α : Type} (k0 : String) (f : α → α) : List (String × α) → List (String × α)
  | [] => []
  | (k', v) :: rest =>
      (if k' = k0 then (k', f v) else (k', v)) :: updEntry k0 f rest

theorem dlookup_updEntry {α : Type} (k0 k : String) (f : α → α) (l : List (String × α)) :
    dlookup (updEntry k0 f l) k
      = if k = k0 then (dlookup l k).map f else dlookup l k := by
  induction l with
  | nil => simp [updEntry, dlookup]
  | cons hd tl ih =>
      obtain ⟨k', v⟩ := hd
      show dlookup ((if k' = k0 then (k', f v) else (k', v)) :: updEntry k0 f tl) k = _
      by_cases hk0 : k' = k0
      · subst hk0
        rw [if_pos rfl]
        by_cases hkk : k' = k
        · subst hkk
          simp [dlookup]
        · have hkk' : ¬k = k' := fun hc => hkk hc.symm
          simp [dlookup, hkk, hkk', ih]
      · rw [if_neg hk0]
        by_cases hkk : k' = k
        · subst hkk
          have hk0' : ¬k' = k0 := hk0
          simp [dlookup, hk0']
        · have hkk' : ¬k = k' := fun hc => hkk hc.symm
          simp [dlookup, hkk, hk0, ih]

theorem updEntry_idem {α : Type} (k0 : String) (f : α → α)
    (hf : ∀ a, f (f a) = f a) (l : List (String × α)) :
    updEntry k0 f (updEntry k0 f l) = updEntry k0 f l := by
  induction l with
  | nil => rfl
  | cons hd tl ih =>
      obtain ⟨k', v⟩ := hd
      show updEntry k0 f ((if k' = k0 then (k', f v) else (k', v)) :: updEntry k0 f tl)
        = (if k' = k0 then (k', f v) else (k', v)) :: updEntry k0 f tl
      by_cases h : k' = k0
      · rw [if_pos h]
        show (if k' = k0 then (k', f (f v)) else (k', f v)) :: updEntry k0 f (updEntry k0 f tl) = _
        rw [if_pos h, hf, ih]
      · rw [if_neg h]
        show (if k' = k0 then (k', f v) else (k', v)) :: updEntry k0 f (updEntry k0 f tl) = _
        rw [if_neg h, ih]

theorem mem_updEntry {α : Type} (k0 : String) (f : α → α) (l : List (String × α))
    (kv : String × α) (h : kv ∈ updEntry k0 f l) :
    ∃ kv0 ∈ l, kv = if kv0.1 = k0 then (kv0.1, f kv0.2) else kv0 := by
  induction l with
  | nil => cases h
  | cons hd tl ih =>
      obtain ⟨k', v⟩ := hd
      rw [show updEntry k0 f ((k', v) :: tl)
            = (if k' = k0 then (k', f v) else (k', v)) :: updEntry k0 f tl from rfl] at h
      rcases List.mem_cons.mp h with heq | htl
      · exact ⟨(k', v), List.mem_cons_self _ _, heq⟩
      · obtain ⟨kv0, h0, he⟩ := ih htl
        exact ⟨kv0, List.mem_cons_of_mem _ h0, he⟩

/-- Merge-candidate test from `_create_alert` lines 271-276: same pattern
name, not resolved, and `(now - alert.timestamp).seconds < 300`. -/
def mergeCandidate (pname : String) (now : Int) (a : Alert) : Bool :=
  a.pattern_name == pname && !a.resolved && decide (pySecondsField (now - a.timestamp) < 300)

/-- First merge candidate in dict iteration order (lines 270-276). -/
def findMergeTarget (pname : String) (now : Int) (alerts : List (String × Alert)) :
    Option (String × Alert) :=
  alerts.find? (fun kv => mergeCandidate pname now kv.2)

/-- The updated alert of the merge branch (lines 278-281): count replaced,
`last_occurrence` detail set. -/
def mkMergedAlert (a : Alert) (count : Nat) (now : Int) : Alert :=
  { a with count := count,
           details := dinsert a.details "last_occurrence" (.str (isoUtc now)) }

/-- The new alert of the create branch (lines 283-297). -/
def mkNewAlert (p : LogPattern) (count : Nat) (log_entry : String) (now : Int) : Alert :=
  { id := p.name ++ "_" ++ toString now,
    pattern_name := p.name,
    message := "Pattern " ++ p.name ++ " matched " ++ toString count ++
      " times in " ++ toString p.time_window_minutes ++ " minutes",
    severity := p.severity,
    timestamp := now,
    count := count,
    details := [("pattern", .str p.pattern),
                ("threshold", .num (p.threshold : Int)),
                ("time_window_minutes", .num (p.time_window_minutes : Int)),
                ("sample_log_entry", .str (String.mk (log_entry.toList.take 500)))] }

/-- Embedding of `LogMonitor._create_alert` (lines 265-309).  The alert
callback is modelled by `cb : Alert → Bool`, `true` meaning the callback
raises; the source invokes it inside `try/except`, logging the exception, so
the raised/not-raised outcome only affects the logged-error count. In the
source the alert is stored in `active_alerts` and appended to
`alert_history` before the callback runs, so the stored state is identical
whether or not the callback raises. -/
def create_alert (cb : Alert → Bool) (p : LogPattern) (count : Nat)
    (log_entry : String) (now : Int) (s : MonitorState) : MonitorState :=
  match findMergeTarget p.name now s.active_alerts with
  | some (k, a) =>
      { s with active_alerts :=
          updEntry k (fun _ => mkMergedAlert a count now) s.active_alerts }
  | none =>
      let a := mkNewAlert p count log_entry now
      { s with active_alerts := dinsert s.active_alerts a.id a,
               alert_history := s.alert_history ++ [a.id],
               callback_invocations := s.callback_invocations ++ [a],
               callback_errors := s.callback_errors + (if cb a then 1 else 0) }

/-- Embedding of `LogMonitor._trigger_pattern_match` (lines 243-263):
increment the pattern's total count, keep only timestamps strictly newer
than `now - time_window`, append `now`, and call `_create_alert` when the
retained count reaches the threshold. -/
def trigger_pattern_match (cb : Alert → Bool) (p : LogPattern) (now : Int)
    (log_entry : String) (s : MonitorState) : MonitorState :=
  let cutoff : Int := now - (p.time_window_minutes : Int) * 60
  let ts := (lookupTs s.pattern_timestamps p.name).filter (fun t => decide (cutoff < t)) ++ [now]
  let s1 := { s with
    pattern_counts :=
      dinsert s.pattern_counts p.name ((dlookup s.pattern_counts p.name).getD 0 + 1),
    pattern_timestamps := dinsert s.pattern_timestamps p.name ts }
  if p.threshold ≤ ts.length then create_alert cb p ts.length log_entry now s1 else s1

/-- Embedding of `LogMonitor.get_active_alerts` (lines 353-355). -/
def get_active_alerts (s : MonitorState) : List Alert :=
  (s.active_alerts.map Prod.snd).filter (fun a => !a.resolved)

/-- Membership test `alert_id in self.active_alerts`. -/
def hasAlertId (alert_id : String) (s : MonitorState) : Bool :=
  (dlookup s.active_alerts alert_id).isSome

/-- The field assignment `alert.acknowledged = True`. -/
def markAcknowledged (a : Alert) : Alert := { a with acknowledged := true }

/-- The field assignment `alert.resolved = True`. -/
def markResolved (a : Alert) : Alert := { a with resolved := true }

/-- Embedding of `LogMonitor.acknowledge_alert` (lines 357-363): if the id
is a key of `active_alerts`, set that alert's `acknowledged` flag and return
true, else return false. -/
def acknowledge_alert (alert_id : String) (s : MonitorState) : Bool × MonitorState :=
  if hasAlertId alert_id s then
    (true, { s with active_alerts := updEntry alert_id markAcknowledged s.active_alerts })
  else (false, s)

/-- Embedding of `LogMonitor.resolve_alert` (lines 365-371): if the id is a
key of `active_alerts`, set that alert's `resolved` flag and return true,
else return false.  The entry is never removed from the dict. -/
def resolve_alert (alert_id : String) (s : MonitorState) : Bool × MonitorState :=
  if hasAlertId alert_id s then
    (true, { s with active_alerts := updEntry alert_id markResolved s.active_alerts })
  else (false, s)

/-! Embedding of `AsyncLogHandler` (`logging.py` lines 185-214).  The
observable state is the pending queue, the records the wrapped target
handler has written, and the records explicitly reported as discarded (the
source has no code path that reports a discard, so this list never grows).
The class overrides no `close`/shutdown method, so shutdown is the inherited
`logging.Handler.close`, which touches none of these observables and does
not join the daemon worker thread. -/

structure AsyncHandlerState where
  queue : List String := []
  max_queue_size : Nat := 10000
  target_written : List String := []
  discard_reports : List String := []
deriving DecidableEq

/-- Test for `queue.Full` on `put_nowait`: a `queue.Queue(maxsize=n)` is full
when `n > 0` and the queue holds at least `n` items. -/
def queueFull (s : AsyncHandlerState) : Bool :=
  decide (0 < s.max_queue_size) && decide (s.max_queue_size ≤ s.queue.length)

namespace AsyncLogHandler

/-- Embedding of `AsyncLogHandler.emit` (lines 195-201): `put_nowait`, and on
`queue.Full` a synchronous `target_handler.emit` on the caller's context. -/
def emit (r : String) (s : AsyncHandlerState) : AsyncHandlerState :=
  if queueFull s then { s with target_written := s.target_written ++ [r] }
  else { s with queue := s.queue ++ [r] }

/-- One iteration of the `_process_logs` worker loop (lines 203-214): dequeue
the oldest record and write it through the target handler; an empty queue is
the `queue.Empty` timeout branch, which just continues. -/
def processStep (s : AsyncHandlerState) : AsyncHandlerState :=
  match s.queue with
  | [] => s
  | r :: rest => { s with queue := rest, target_written := s.target_written ++ [r] }

/-- Shutdown of the adapter: `AsyncLogHandler` defines no `close`, `stop` or
drain method, so the inherited `logging.Handler.close` runs.  It removes the
handler from the module-level handler list and neither drains the queue,
reports discards, nor joins the worker thread; on the observables modelled
here it is the identity. -/
def close (s : AsyncHandlerState) : AsyncHandlerState := s

end AsyncLogHandler

/-! Embedding of `PrismaLogger.initialize` (`logging.py` lines 223-271),
restricted to the configuration handling the claims are about: resolution of
`log_level` and selection of the console formatter from `log_format`. -/

/-- The `category` attribute value a record may carry: either a
`LogCategory` enum member or a plain string (`hasattr`/`isinstance` at lines
133-134 distinguish these). -/
inductive PyCatVal where
  | enumVal : LogCategory → PyCatVal
  | strVal : String → PyCatVal
deriving DecidableEq

/-- Line 134: the special-cased rendering `record.category.value if
isinstance(record.category, LogCategory) else record.category`. -/
def categorySpecial : PyCatVal → JVal
  | .enumVal c => .str c.value
  | .strVal s => .str s

/-- The value the generic attribute loop (lines 146-150) stores for the raw
`category` attribute, after `json.dumps`'s `default=str` fallback: a
`LogCategory` enum serializes as `str(member)`. -/
def categoryRaw : PyCatVal → JVal
  | .enumVal c => .str c.pyStr
  | .strVal s => .str s

/-- Embedding of a `logging.LogRecord` as `StructuredFormatter.format` reads
it: the standard attributes, the optional `category` attribute, and the
further attributes set on the record (in attribute-creation order), already
as JSON values. -/
structure PyLogRecord where
  name : String
  levelname : String
  message : String
  moduleName : String
  funcName : String
  lineno : Int
  thread : Int
  process : Int
  created : Int
  category : Option PyCatVal := none
  extras : JObj := []
deriving DecidableEq

/-- The `asdict(trace_ctx)` mapping merged in at lines 123-125, in dataclass
field order. -/
def ctxAsDict (c : LogContext) : JObj :=
  [("trace_id", .str c.trace_id),
   ("span_id", .str c.span_id),
   ("user_id", (c.user_id.map JVal.str).getD .nul),
   ("session_id", (c.session_id.map JVal.str).getD .nul),
   ("request_id", (c.request_id.map JVal.str).getD .nul),
   ("service_name", (c.service_name.map JVal.str).getD .nul),
   ("operation", (c.operation.map JVal.str).getD .nul),
   ("component", (c.component.map JVal.str).getD .nul),
   ("version", (c.version.map JVal.str).getD .nul),
   ("environment", (c.environment.map JVal.str).getD .nul),
   ("extra", (c.extra.map JVal.str).getD .nul)]

/-- Embedding of `StructuredFormatter.format`: build the base dict (lines
110-120), merge the bound trace context (123-125) and request context
(128-130), special-case `category` (133-134), then run the generic loop over
`record.__dict__` minus the exclusion list (146-150) — which revisits the
raw `category` attribute (not excluded) and every extra attribute, in
attribute order. -/
def structuredFormat (tctx : TraceVar) (req : JObj) (r : PyLogRecord) : JObj :=
  let base : JObj :=
    [("timestamp", .str (isoUtc r.created)),
     ("level", .str r.levelname),
     ("logger", .str r.name),
     ("message", .str r.message),
     ("module", .str r.moduleName),
     ("function", .str r.funcName),
     ("line", .num r.lineno),
     ("thread", .num r.thread),
     ("process", .num r.process)]
  let m1 := match tctx with
    | none => base
    | some c => dupdate base (ctxAsDict c)
  let m2 := dupdate m1 req
  let m3 := match r.category with
    | none => m2
    | some cv => dinsert m2 "category" (categorySpecial cv)
  let m4 := match r.category with
    | none => m3
    | some cv => dinsert m3 "category" (categoryRaw cv)
  dupdate m4 r.extras

/-! Theorems settling the claims. -/

/-- Callback stub used in concrete runs: a callback that never raises. -/
def cbNone : Alert → Bool := fun _ => false

/-- Pattern of claim C1's scenario: threshold 3, window 5 minutes. -/
def patC1 : LogPattern := { name := "p", pattern := "err", threshold := 3 }

/-- Monitor state of claim C1's scenario after matches at t = 0, t = 0 and
t = 240 s (4 minutes). -/
def c1run : MonitorState :=
  trigger_pattern_match cbNone patC1 240 "e"
    (trigger_pattern_match cbNone patC1 0 "e"
      (trigger_pattern_match cbNone patC1 0 "e" {}))

/-- Retention predicate the claim words describe: evict only timestamps
strictly older than `now - time_window`, i.e. keep every `ts` with
`now - time_window ≤ ts`. -/
def claimedRetain (now window : Int) (old : List Int) : List Int :=
  old.filter (fun t => decide (now - window * 60 ≤ t))

/-- Claim C1 (counterexample): the eviction step does not keep timestamps
exactly `time_window` old.  Pattern with threshold 2, window 5 minutes,
matches at t = 0 and t = 300 s: the code evicts the boundary timestamp 0
(it keeps only timestamps strictly newer than the cutoff), leaving the queue
at `[300]` with no alert, whereas the claim's eviction predicate — evict
only what is older than `now - time_window` — would retain `[0, 300]` and
reach the threshold. -/
theorem C1_eviction_counterexample :
    (lookupTs (trigger_pattern_match cbNone
        { name := "p", pattern := "err", threshold := 2 } 300 "e"
        (trigger_pattern_match cbNone
          { name := "p", pattern := "err", threshold := 2 } 0 "e"
          {})).pattern_timestamps "p"
      = [(300 : Int)]) ∧
    claimedRetain 300 5 [0] ++ [(300 : Int)] = [0, 300] ∧
    ([(300 : Int)] ≠ [0, 300]) ∧
    (trigger_pattern_match cbNone
        { name := "p", pattern := "err", threshold := 2 } 300 "e"
        (trigger_pattern_match cbNone
          { name := "p", pattern := "err", threshold := 2 } 0 "e"
          {})).active_alerts = [] := by
  refine ⟨by decide, by decide, by decide, by decide⟩

theorem create_alert_timestamps (cb : Alert → Bool) (p : LogPattern) (c : Nat)
    (e : String) (now : Int) (s : MonitorState) :
    (create_alert cb p c e now s).pattern_timestamps = s.pattern_timestamps := by
  unfold create_alert
  cases findMergeTarget p.name now s.active_alerts with
  | none => rfl
  | some kv => rfl

theorem create_alert_active_congr (cb : Alert → Bool) (p : LogPattern) (c : Nat)
    (e : String) (now : Int) {s₁ s₂ : MonitorState}
    (h : s₁.active_alerts = s₂.active_alerts) :
    (create_alert cb p c e now s₁).active_alerts
      = (create_alert cb p c e now s₂).active_alerts := by
  unfold create_alert
  rw [h]
  cases findMergeTarget p.name now s₂.active_alerts with
  | none => simp [h]
  | some kv => simp [h]

/-- Claim C1 (amended): for a registered enabled pattern with threshold 3
and window 5 minutes, matches at t = 0, t = 0 and t = 240 s create exactly
one alert, with count 3, at the time of the third match, and the first two
matches create none; on each match the monitor first evicts from the
pattern's timestamp queue every timestamp that is at least `time_window`
old (keeping only timestamps strictly newer than `now - time_window`),
appends `now`, and invokes alert creation/merge exactly when the resulting
queue length is at least the threshold. -/
theorem C1_sliding_window_amended :
    ((trigger_pattern_match cbNone patC1 0 "e" {}).active_alerts = [] ∧
     (trigger_pattern_match cbNone patC1 0 "e"
       (trigger_pattern_match cbNone patC1 0 "e" {})).active_alerts = [] ∧
     c1run.active_alerts = [("p_240", mkNewAlert patC1 3 "e" 240)] ∧
     (mkNewAlert patC1 3 "e" 240).count = 3 ∧
     (mkNewAlert patC1 3 "e" 240).timestamp = 240 ∧
     c1run.alert_history = ["p_240"]) ∧
    (∀ (cb : Alert → Bool) (p : LogPattern) (now : Int) (e : String) (s : MonitorState),
      lookupTs (trigger_pattern_match cb p now e s).pattern_timestamps p.name
        = (lookupTs s.pattern_timestamps p.name).filter
            (fun t => decide (now - (p.time_window_minutes : Int) * 60 < t)) ++ [now] ∧
      (trigger_pattern_match cb p now e s).active_alerts
        = (if p.threshold ≤
              ((lookupTs s.pattern_timestamps p.name).filter
                (fun t => decide (now - (p.time_window_minutes : Int) * 60 < t)) ++ [now]).length
           then (create_alert cb p
                  ((lookupTs s.pattern_timestamps p.name).filter
                    (fun t => decide (now - (p.time_window_minutes : Int) * 60 < t)) ++ [now]).length
                  e now s).active_alerts
           else s.active_alerts)) := by
  constructor
  · refine ⟨by decide, by decide, by decide, by decide, by decide, by decide⟩
  · intro cb p now e s
    constructor
    · simp only [trigger_pattern_match]
      by_cases h : p.threshold ≤
          ((lookupTs s.pattern_timestamps p.name).filter
            (fun t => decide (now - (p.time_window_minutes : Int) * 60 < t)) ++ [now]).length
      · rw [if_pos h, create_alert_timestamps]
        unfold lookupTs
        rw [dlookup_dinsert_self]
        rfl
      · rw [if_neg h]
        unfold lookupTs
        rw [dlookup_dinsert_self]
        rfl
    · simp only [trigger_pattern_match]
      by_cases h : p.threshold ≤
          ((lookupTs s.pattern_timestamps p.name).filter
            (fun t => decide (now - (p.time_window_minutes : Int) * 60 < t)) ++ [now]).length
      · rw [if_pos h, if_pos h]
        exact create_alert_active_congr cb p _ e now rfl
      · rw [if_neg h, if_neg h]


/-- Alert used in the C2 evaluation: created for pattern `patC1` at epoch
second 0 (id `p_0`, unresolved). -/
def alertC2 : Alert := mkNewAlert patC1 3 "e" 0

/-- Monitor state holding `alertC2` as the only active alert. -/
def stateC2 : MonitorState :=
  { active_alerts := [("p_0", alertC2)], alert_history := ["p_0"] }

/-- Claim C2 (code bug evaluation): `_create_alert` compares
`(datetime.now() - alert.timestamp).seconds`, the seconds-of-day component
of the timedelta, not its total length.  Invoked exactly one day (86400 s)
after `alertC2` was created, that component is 0, so the day-old alert is
merged (its count is updated in place, no new alert is constructed and the
history is unchanged) even though it was created far more than 5 minutes
ago — the inline comment `# 5 minutes` and the claim require a new alert
here.  At age 301 s, by contrast, a second alert is created. -/
theorem C2_merge_window_code_evaluation :
    pySecondsField (86400 - 0) = 0 ∧
    (300 : Int) < 86400 ∧
    (create_alert cbNone patC1 4 "e2" 86400 stateC2).active_alerts
      = [("p_0", mkMergedAlert alertC2 4 86400)] ∧
    (create_alert cbNone patC1 4 "e2" 86400 stateC2).alert_history = ["p_0"] ∧
    (create_alert cbNone patC1 4 "e2" 86400 stateC2).callback_invocations = [] ∧
    (create_alert cbNone patC1 4 "e2" 301 stateC2).active_alerts.length = 2 := by
  refine ⟨by decide, by decide, by decide, by decide, by decide, by decide⟩

/-- Claim C3: the alert callback is invoked exactly once, synchronously,
when and only when a new alert is created (never on a merge), and the alert
is committed to `active_alerts` and `alert_history` independently of the
callback's behaviour: the stored state after `_create_alert` is the same
for any two callbacks (in particular for one that raises and one that does
not), because the source stores the alert before the callback runs and
swallows the callback's exception with `try/except`. -/
theorem C3_callback_semantics (cb cb' : Alert → Bool) (p : LogPattern)
    (count : Nat) (e : String) (now : Int) (s : MonitorState) :
    ((create_alert cb p count e now s).active_alerts
        = (create_alert cb' p count e now s).active_alerts ∧
     (create_alert cb p count e now s).alert_history
        = (create_alert cb' p count e now s).alert_history ∧
     (create_alert cb p count e now s).callback_invocations
        = (create_alert cb' p count e now s).callback_invocations) ∧
    ((findMergeTarget p.name now s.active_alerts).isSome = true →
      (create_alert cb p count e now s).callback_invocations
        = s.callback_invocations) ∧
    (findMergeTarget p.name now s.active_alerts = none →
      (create_alert cb p count e now s).callback_invocations
          = s.callback_invocations ++ [mkNewAlert p count e now] ∧
      dlookup (create_alert cb p count e now s).active_alerts
          (mkNewAlert p count e now).id = some (mkNewAlert p count e now) ∧
      (create_alert cb p count e now s).alert_history
          = s.alert_history ++ [(mkNewAlert p count e now).id]) := by
  refine ⟨?_, ?_, ?_⟩
  · unfold create_alert
    cases hf : findMergeTarget p.name now s.active_alerts with
    | none => exact ⟨rfl, rfl, rfl⟩
    | some kv => exact ⟨rfl, rfl, rfl⟩
  · intro hsome
    unfold create_alert
    cases hf : findMergeTarget p.name now s.active_alerts with
    | none => rw [hf] at hsome; exact absurd hsome (by simp)
    | some kv => rfl
  · intro hnone
    unfold create_alert
    rw [hnone]
    exact ⟨rfl, dlookup_dinsert_self _ _ _, rfl⟩

/-- Witness for C3: in the empty monitor state there is no merge candidate,
so the callback fires exactly once with the new alert; in `stateC2` at
`now = 100` a merge candidate exists, so no callback fires. -/
theorem C3_callback_semantics_witness :
    (findMergeTarget patC1.name 0 (({} : MonitorState)).active_alerts = none ∧
     (create_alert cbNone patC1 3 "e" 0 {}).callback_invocations
        = [mkNewAlert patC1 3 "e" 0]) ∧
    ((findMergeTarget patC1.name 100 stateC2.active_alerts).isSome = true ∧
     (create_alert cbNone patC1 4 "e2" 100 stateC2).callback_invocations = []) := by
  constructor
  · refine ⟨by decide, ?_⟩
    have h := ((C3_callback_semantics cbNone cbNone patC1 3 "e" 0 {}).2.2 (by decide)).1
    simpa using h
  · refine ⟨by decide, ?_⟩
    have h := (C3_callback_semantics cbNone cbNone patC1 4 "e2" 100 stateC2).2.1 (by decide)
    simpa using h

/-- Claim C7: `resolve_alert` on a known id returns true; a second
`resolve_alert` on the same id returns the same boolean and leaves the
state exactly as after the first call (idempotence also holds for unknown
ids, where both calls return false and change nothing); `acknowledge_alert`
on an unknown id returns false and changes no state; and after a successful
`resolve_alert`, `get_active_alerts` contains no alert with that id (under
the invariant, true of every reachable state, that each dict entry's key is
its alert's id). -/
theorem C7_alert_lifecycle (s : MonitorState) (id1 id2 : String) :
    (hasAlertId id1 s = true → (resolve_alert id1 s).1 = true) ∧
    (resolve_alert id1 (resolve_alert id1 s).2
        = ((resolve_alert id1 s).1, (resolve_alert id1 s).2)) ∧
    (hasAlertId id2 s = false → acknowledge_alert id2 s = (false, s)) ∧
    ((∀ kv ∈ s.active_alerts, kv.2.id = kv.1) →
      (resolve_alert id1 s).1 = true →
      ∀ a ∈ get_active_alerts (resolve_alert id1 s).2, a.id ≠ id1) := by
  refine ⟨?_, ?_, ?_, ?_⟩
  · intro h
    simp [resolve_alert, h]
  · by_cases h : hasAlertId id1 s
    · have hupd : updEntry id1 markResolved (updEntry id1 markResolved s.active_alerts)
          = updEntry id1 markResolved s.active_alerts :=
        updEntry_idem id1 markResolved (fun a => rfl) s.active_alerts
      simp only [resolve_alert, h, if_true]
      have hc : hasAlertId id1
          { s with active_alerts := updEntry id1 markResolved s.active_alerts } = true := by
        show (dlookup (updEntry id1 markResolved s.active_alerts) id1).isSome = true
        rw [dlookup_updEntry, if_pos rfl]
        unfold hasAlertId at h
        cases hd : dlookup s.active_alerts id1 with
        | none => rw [hd] at h; cases h
        | some a => simp
      rw [if_pos hc]
      rw [hupd]
    · have hb : hasAlertId id1 s = false := by simpa using h
      simp [resolve_alert, hb]
  · intro h
    simp [acknowledge_alert, h]
  · intro hwf hres a ha hid
    by_cases h : hasAlertId id1 s
    · simp only [resolve_alert, h, if_true] at ha
      simp only [get_active_alerts] at ha
      rw [List.mem_filter] at ha
      obtain ⟨hmem, hflag⟩ := ha
      rw [List.mem_map] at hmem
      obtain ⟨kv, hkv, hsnd⟩ := hmem
      obtain ⟨kv0, hkv0, hkveq⟩ := mem_updEntry id1 markResolved s.active_alerts kv hkv
      by_cases hk : kv0.1 = id1
      · rw [hkveq] at hsnd
        rw [if_pos hk] at hsnd
        rw [← hsnd] at hflag
        simp [markResolved] at hflag
      · rw [hkveq] at hsnd
        rw [if_neg hk] at hsnd
        have hida : a.id = kv0.1 := by rw [← hsnd]; exact hwf kv0 hkv0
        exact hk (by rw [← hida, hid])
    · have hb : hasAlertId id1 s = false := by simpa using h
      rw [resolve_alert, hb] at hres
      cases hres

/-- Witness for C7: a one-alert state where resolving twice yields true both
times without further change, acknowledging an unknown id returns false
unchanged, and the resolved alert leaves the active list. -/
theorem C7_alert_lifecycle_witness :
    (hasAlertId "p_0" stateC2 = true ∧ (resolve_alert "p_0" stateC2).1 = true) ∧
    resolve_alert "p_0" (resolve_alert "p_0" stateC2).2
      = ((resolve_alert "p_0" stateC2).1, (resolve_alert "p_0" stateC2).2) ∧
    (hasAlertId "nope" stateC2 = false ∧
      acknowledge_alert "nope" stateC2 = (false, stateC2)) ∧
    ((∀ kv ∈ stateC2.active_alerts, kv.2.id = kv.1) ∧
      ∀ a ∈ get_active_alerts (resolve_alert "p_0" stateC2).2, a.id ≠ "p_0") := by
  have h := C7_alert_lifecycle stateC2 "p_0" "nope"
  refine ⟨⟨by decide, h.1 (by decide)⟩, h.2.1, ⟨by decide, h.2.2.1 (by decide)⟩,
    ⟨by decide, h.2.2.2 (by decide) (h.1 (by decide))⟩⟩



/-- Claim C4 (counterexample): bind none, enter a `LogContext` scope, set the
trace context inside it, exit the scope — the current context is still the
newly set one, not the previously bound none: `__exit__` restores nothing. -/
theorem C4_context_restoration_counterexample :
    LogContext.exitScope ctx1
        (set_trace_context ctx1 (LogContext.enter ctx1 none).2) = some ctx1 ∧
    some ctx1 ≠ (none : TraceVar) := by
  exact ⟨rfl, by decide⟩

/-- Claim C4 (amended): a `LogContext` used as a scoped handle does not
save or restore the trace-context binding: `__enter__` returns the handle
and leaves the binding untouched, `__exit__` is a no-op (whether the scope
ends normally or via an error, since it ignores the exception arguments),
and `set_trace_context` unconditionally overwrites the binding; whatever
context was set last inside the scope remains current after the scope ends. -/
theorem C4_context_no_restoration_amended (c : LogContext) (s : TraceVar) :
    (c.enter s).2 = s ∧ (c.enter s).1 = c ∧
    LogContext.exitScope c s = s ∧ set_trace_context c s = some c :=
  ⟨rfl, rfl, rfl, rfl⟩

/-- Claim C5 (counterexample): enqueue one record into a fresh adapter and
shut the adapter down.  The record is still in the queue, has not been
written to the wrapped target handler, and no discard has been reported —
the enqueued item is silently lost if the daemon worker never runs again
(as at process exit), and shutdown joined nothing. -/
theorem C5_shutdown_counterexample :
    "rec" ∈ (AsyncLogHandler.close (AsyncLogHandler.emit "rec" {})).queue ∧
    "rec" ∉ (AsyncLogHandler.close (AsyncLogHandler.emit "rec" {})).target_written ∧
    (AsyncLogHandler.close (AsyncLogHandler.emit "rec" {})).discard_reports = [] := by
  refine ⟨by decide, by decide, by decide⟩

/-- Claim C5 (amended): `AsyncLogHandler` defines no shutdown or drain
method; shutting the adapter down runs the inherited `logging.Handler.close`,
which leaves the queue, the target-written output, and the (always empty)
discard reports untouched and does not join the daemon worker, so an item
that was successfully enqueued by `emit` and not yet taken by the worker is
still pending after shutdown — neither written nor reported discarded. -/
theorem C5_no_drain_on_shutdown_amended (s : AsyncHandlerState) (r : String) :
    (AsyncLogHandler.close s = s) ∧
    (queueFull s = false →
      (AsyncLogHandler.close (AsyncLogHandler.emit r s)).queue = s.queue ++ [r] ∧
      (AsyncLogHandler.close (AsyncLogHandler.emit r s)).target_written = s.target_written ∧
      (AsyncLogHandler.close (AsyncLogHandler.emit r s)).discard_reports
        = s.discard_reports) := by
  constructor
  · rfl
  · intro h
    have hb : ¬queueFull s = true := by simp [h]
    refine ⟨?_, ?_, ?_⟩ <;> simp [AsyncLogHandler.close, AsyncLogHandler.emit, hb]

/-- Witness for C5 (amended): on a fresh adapter the queue is not full, so
an emitted record sits in the queue and shutdown changes nothing. -/
theorem C5_no_drain_on_shutdown_witness :
    queueFull {} = false ∧
    (AsyncLogHandler.close (AsyncLogHandler.emit "rec" {})).queue = [] ++ ["rec"] :=
  ⟨by decide, ((C5_no_drain_on_shutdown_amended {} "rec").2 (by decide)).1⟩

/-- Claim C8: `emit` performs only a non-blocking enqueue attempt
(`put_nowait`); when the bounded queue is full it writes the record
synchronously through the wrapped target handler on the caller's own
execution context (queue unchanged), and otherwise it appends the record to
the queue without touching the target. -/
theorem C8_emit_overload_fallback (s : AsyncHandlerState) (r : String) :
    (queueFull s = true →
      (AsyncLogHandler.emit r s).queue = s.queue ∧
      (AsyncLogHandler.emit r s).target_written = s.target_written ++ [r]) ∧
    (queueFull s = false →
      (AsyncLogHandler.emit r s).queue = s.queue ++ [r] ∧
      (AsyncLogHandler.emit r s).target_written = s.target_written) := by
  constructor
  · intro h
    exact ⟨by simp [AsyncLogHandler.emit, h], by simp [AsyncLogHandler.emit, h]⟩
  · intro h
    have hb : ¬queueFull s = true := by simp [h]
    exact ⟨by simp [AsyncLogHandler.emit, hb], by simp [AsyncLogHandler.emit, hb]⟩

/-- Witness for C8: with capacity 1 and one queued record the queue is full
and `emit` writes synchronously through the target; on a fresh adapter the
enqueue succeeds. -/
theorem C8_emit_overload_fallback_witness :
    (queueFull { queue := ["a"], max_queue_size := 1 } = true ∧
      (AsyncLogHandler.emit "b" { queue := ["a"], max_queue_size := 1 }).target_written
        = [] ++ ["b"]) ∧
    (queueFull {} = false ∧
      (AsyncLogHandler.emit "b" {}).queue = [] ++ ["b"]) :=
  ⟨⟨by decide,
     ((C8_emit_overload_fallback { queue := ["a"], max_queue_size := 1 } "b").1 (by decide)).2⟩,
   ⟨by decide, ((C8_emit_overload_fallback {} "b").2 (by decide)).1⟩⟩



/-- Record used in the C9 counterexample: a record carrying the enum value
`LogCategory.SYSTEM` as its `category` attribute, the form produced by
`log_with_context(logger, level, msg, category=LogCategory.SYSTEM)`. -/
def recC9 : PyLogRecord :=
  { name := "app", levelname := "INFO", message := "hi", moduleName := "m",
    funcName := "f", lineno := 1, thread := 1, process := 1, created := 0,
    category := some (.enumVal .system) }

/-- Claim C9 (counterexample): rendering `recC9` in structured mode yields a
`category` field holding `str(LogCategory.SYSTEM)` — the generic attribute
loop of `StructuredFormatter.format` overwrites the special-cased enum
`.value` with the raw enum object, which `json.dumps(default=str)` renders
as `LogCategory.SYSTEM` — so parsing the output back does not recover the
original record's category value `system`. -/
theorem C9_roundtrip_counterexample :
    dlookup (structuredFormat none [] recC9) "category"
      = some (.str "LogCategory.SYSTEM") ∧
    LogCategory.system.value = "system" ∧
    dlookup (structuredFormat none [] recC9) "category"
      ≠ some (.str LogCategory.system.value) := by
  refine ⟨by decide, by decide, by decide⟩

theorem notin_ctxAsDict (c : LogContext) (k : String)
    (hk : k = "level" ∨ k = "message" ∨ k = "category") :
    k ∉ dkeys (ctxAsDict c) := by
  rcases hk with h | h | h <;> subst h <;> simp [ctxAsDict, dkeys]

/-- Claim C9 (amended): structured rendering always yields a parseable
object (`json.dumps` with `default=str` cannot fail, and for a dict with
unique string keys parsing back is the identity, which the `JObj` embedding
expresses directly); the parsed object carries the original record's level
and message, provided no request-context entry or extra record attribute
shadows the `level`/`message` keys; and the original category is recovered
exactly when the record's `category` attribute is a plain string — an
enum-valued category is rendered as its Python string form and is not
recovered (see the counterexample). -/
theorem C9_roundtrip_amended (tctx : TraceVar) (req : JObj) (r : PyLogRecord)
    (hl1 : "level" ∉ dkeys req) (hl2 : "level" ∉ dkeys r.extras)
    (hm1 : "message" ∉ dkeys req) (hm2 : "message" ∉ dkeys r.extras) :
    dlookup (structuredFormat tctx req r) "level" = some (.str r.levelname) ∧
    dlookup (structuredFormat tctx req r) "message" = some (.str r.message) ∧
    (∀ cs : String, r.category = some (.strVal cs) →
      "category" ∉ dkeys req → "category" ∉ dkeys r.extras →
      dlookup (structuredFormat tctx req r) "category" = some (.str cs)) := by
  refine ⟨?_, ?_, ?_⟩
  · simp only [structuredFormat]
    rw [dlookup_dupdate_notmem _ _ hl2]
    cases hc : r.category with
    | none =>
        rw [dlookup_dupdate_notmem _ _ hl1]
        cases tctx with
        | none => simp [dlookup]
        | some c =>
            rw [dlookup_dupdate_notmem _ _ (notin_ctxAsDict c _ (Or.inl rfl))]
            simp [dlookup]
    | some cv =>
        rw [dlookup_dinsert_ne _ _ (by decide), dlookup_dinsert_ne _ _ (by decide)]
        rw [dlookup_dupdate_notmem _ _ hl1]
        cases tctx with
        | none => simp [dlookup]
        | some c =>
            rw [dlookup_dupdate_notmem _ _ (notin_ctxAsDict c _ (Or.inl rfl))]
            simp [dlookup]
  · simp only [structuredFormat]
    rw [dlookup_dupdate_notmem _ _ hm2]
    cases hc : r.category with
    | none =>
        rw [dlookup_dupdate_notmem _ _ hm1]
        cases tctx with
        | none => simp [dlookup]
        | some c =>
            rw [dlookup_dupdate_notmem _ _ (notin_ctxAsDict c _ (Or.inr (Or.inl rfl)))]
            simp [dlookup]
    | some cv =>
        rw [dlookup_dinsert_ne _ _ (by decide), dlookup_dinsert_ne _ _ (by decide)]
        rw [dlookup_dupdate_notmem _ _ hm1]
        cases tctx with
        | none => simp [dlookup]
        | some c =>
            rw [dlookup_dupdate_notmem _ _ (notin_ctxAsDict c _ (Or.inr (Or.inl rfl)))]
            simp [dlookup]
  · intro cs hcs hc1 hc2
    simp only [structuredFormat, hcs]
    rw [dlookup_dupdate_notmem _ _ hc2]
    simp only [categoryRaw]
    exact dlookup_dinsert_self _ _ _

/-- Witness for C9 (amended): a concrete record with a plain-string category
and empty contexts round-trips its level, message and category. -/
theorem C9_roundtrip_amended_witness :
    ("level" ∉ dkeys ([] : JObj) ∧ "message" ∉ dkeys ([] : JObj) ∧
     "category" ∉ dkeys ([] : JObj)) ∧
    (dlookup (structuredFormat none []
        { name := "app", levelname := "INFO", message := "hi", moduleName := "m",
          funcName := "f", lineno := 1, thread := 1, process := 1, created := 0,
          category := some (.strVal "system") }) "level" = some (.str "INFO") ∧
     dlookup (structuredFormat none []
        { name := "app", levelname := "INFO", message := "hi", moduleName := "m",
          funcName := "f", lineno := 1, thread := 1, process := 1, created := 0,
          category := some (.strVal "system") }) "category" = some (.str "system")) := by
  constructor
  · exact ⟨by decide, by decide, by decide⟩
  · constructor
    · exact (C9_roundtrip_amended none []
        { name := "app", levelname := "INFO", message := "hi", moduleName := "m",
          funcName := "f", lineno := 1, thread := 1, process := 1, created := 0,
          category := some (.strVal "system") }
        (by decide) (by decide) (by decide) (by decide)).1
    · exact (C9_roundtrip_amended none []
        { name := "app", levelname := "INFO", message := "hi", moduleName := "m",
          funcName := "f", lineno := 1, thread := 1, process := 1, created := 0,
          category := some (.strVal "system") }
        (by decide) (by decide) (by decide) (by decide)).2.2 "system" rfl
        (by decide) (by decide)

/-- Pattern whose regular expression is written in upper case, used to check
case-insensitive matching. -/
def patC10 : LogPattern := { name := "e", pattern := "ERROR" }

/-- Claim C10: every `LogPattern` is compiled with `re.IGNORECASE` at
construction, so matching is invariant under any change of letter case of
the input line (two lines equal up to case match identically), and in
particular the upper-case pattern `ERROR` matches the lower-case line
`error`. -/
theorem C10_case_insensitive :
    (∀ (p : LogPattern) (l1 l2 : String), pyLower l1 = pyLower l2 →
      p.compiledSearch l1 = p.compiledSearch l2) ∧
    patC10.compiledSearch "error" = true ∧
    patC10.compiledSearch "An ERROR occurred" = true ∧
    patC10.compiledSearch "all fine" = false := by
  refine ⟨?_, by decide, by decide, by decide⟩
  intro p l1 l2 h
  unfold LogPattern.compiledSearch
  rw [h]

/-- Witness for C10: two lines differing only in case match identically. -/
theorem C10_case_insensitive_witness :
    pyLower "Database ERROR" = pyLower "dATABASE error" ∧
    patC10.compiledSearch "Database ERROR" = patC10.compiledSearch "dATABASE error" :=
  ⟨by decide, C10_case_insensitive.1 patC10 "Database ERROR" "dATABASE error" (by decide)⟩


end Prisma
